import Mathlib

/-!
# Verification of the aisc-w-columns compression module

Shallow embedding, over the real numbers, of the Python modules
`aisc_360_22/compression.py`, `aisc_360_22/design_requirements.py` and
`aisc_360_22/steel_constants.py` of the `aisc-w-columns` repository.

Modelling conventions:
* Python float arithmetic is modelled by real arithmetic.
* A Python function that can raise an exception is modelled as `Except Unit`.
* An optional float argument (`kc: float=None`) is modelled as `Option ℝ`.
* The tuple `(capacity, warnings, notes)` returned by `w_section_capacity`
  (together with the `report` dict, which the source returns instead of the
  capacity when `return_report=True`) is modelled by the record
  `WSectionResult`; the insertion-ordered `report` dict is modelled as an
  ordered list of (label, value, dimension-tag) rows.
-/

open Classical

noncomputable section

namespace AISC

/-- `steel_constants.STEEL_ELASTIC_MODULUS` (ksi). -/
def STEEL_ELASTIC_MODULUS : ℝ := 29000

/-- `steel_constants.STEEL_SHEAR_MODULUS` (ksi). -/
def STEEL_SHEAR_MODULUS : ℝ := 11200

/-- `compression.PHI_C`, LRFD strength reduction factor for compression. -/
def PHI_C : ℝ := 0.90

/-- `compression.OMEGA_C`, ASD safety factor for compression. -/
def OMEGA_C : ℝ := 1.67

/-- `compression.EFFECTIVE_WIDTH_ADJUSTMENT_FACTORS` (Table E7.1): dict keyed by
"a"/"b"/"c", each value a (description, c1, c2) triple.  The source only ever
looks up keys "a" and "c"; a lookup of any other key would be a Python
`KeyError`, here the final branch. -/
def EFFECTIVE_WIDTH_ADJUSTMENT_FACTORS (key : String) : String × ℝ × ℝ :=
  if key = "a" then
    ("Stiffened elements except walls of suare and rectangular HSS", 0.18, 1.31)
  else if key = "b" then
    ("Walls of square and rectangular HSS", 0.20, 1.38)
  else
    ("All other elements", 0.22, 1.49)

/-- `compression.member_slenderness`: Lc/r = K*L/r. -/
def member_slenderness (unbraced_length radius_of_gyration effective_length_factor : ℝ) : ℝ :=
  effective_length_factor * unbraced_length / radius_of_gyration

/-- `compression.elastic_buckling_stress` (Equation E3-4). -/
def elastic_buckling_stress (slenderness elastic_modulus : ℝ) : ℝ :=
  Real.pi ^ 2 * elastic_modulus / slenderness ^ 2

/-- `compression.ft_elastic_buckling_stress_doubly_symmetric` (Equation E4-2). -/
def ft_elastic_buckling_stress_doubly_symmetric
    (z_effective_length warping_constant Ix Iy J elastic_modulus shear_modulus : ℝ) : ℝ :=
  ((Real.pi ^ 2 * elastic_modulus * warping_constant) / z_effective_length ^ 2
    + shear_modulus * J) * (1 / (Ix + Iy))

/-- `compression.nominal_flexural_buckling_stress` (Equations E3-2, E3-3) in the
case where a (truthy, i.e. nonzero) elastic stress is available.  In the source
the `elastic_stress` argument is optional: when it is `None` (or `0.0`, which is
also falsy in Python) the function first computes it from `slenderness` via
`elastic_buckling_stress`; every call site below mirrors that dispatch, passing
either a computed elastic stress or `elastic_buckling_stress slenderness E`. -/
def nominal_flexural_buckling_stress (yield_stress elastic_stress : ℝ) : ℝ :=
  if yield_stress / elastic_stress ≤ 2.25 then
    (0.658 : ℝ) ^ (yield_stress / elastic_stress) * yield_stress
  else
    0.877 * elastic_stress

/-- `compression.nominal_ft_buckling_stress_doubly_symmetric`. -/
def nominal_ft_buckling_stress_doubly_symmetric
    (yield_stress z_effective_length warping_constant Ix Iy J elastic_modulus shear_modulus : ℝ) : ℝ :=
  nominal_flexural_buckling_stress yield_stress
    (ft_elastic_buckling_stress_doubly_symmetric z_effective_length warping_constant Ix Iy J
      elastic_modulus shear_modulus)

/-- `compression.ft_elastic_buckling_stress_i_minor_axis_offset` (Equation E4-10). -/
def ft_elastic_buckling_stress_i_minor_axis_offset
    (z_effective_length Iy J area r0 h0 y_offset elastic_modulus shear_modulus : ℝ) : ℝ :=
  (Real.pi ^ 2 * elastic_modulus * Iy / z_effective_length ^ 2 * (h0 ^ 2 / 4 + y_offset ^ 2)
    + shear_modulus * J) * (1 / (area * r0 ^ 2))

/-- `compression.ft_elastic_buckling_stress_i_major_axis_offset` (Equation E4-12). -/
def ft_elastic_buckling_stress_i_major_axis_offset
    (z_effective_length Ix Iy J area r0 h0 x_offset elastic_modulus shear_modulus : ℝ) : ℝ :=
  (Real.pi ^ 2 * elastic_modulus * Iy / z_effective_length ^ 2 * (h0 ^ 2 / 4 + Ix / Iy * x_offset ^ 2)
    + shear_modulus * J) * (1 / (area * r0 ^ 2))

/-- `compression.calc_r0` (the source's docstring cites Equation E4-11, which
defines the squared polar radius of gyration). -/
def calc_r0 (rx ry xa ya : ℝ) : ℝ :=
  rx ^ 2 + ry ^ 2 + xa ^ 2 + ya ^ 2

/-- `compression.nominal_ft_buckling_stress_i_bracing_offset`. -/
def nominal_ft_buckling_stress_i_bracing_offset
    (yield_stress z_effective_length Ix Iy J area r0 h0 x_offset y_offset
      elastic_modulus shear_modulus : ℝ) : ℝ :=
  nominal_flexural_buckling_stress yield_stress
    (min (ft_elastic_buckling_stress_i_major_axis_offset z_effective_length Ix Iy J area r0 h0
            x_offset elastic_modulus shear_modulus)
         (ft_elastic_buckling_stress_i_minor_axis_offset z_effective_length Iy J area r0 h0
            y_offset elastic_modulus shear_modulus))

/-- `design_requirements.is_slender_comp` (source parameters: wt_ratio,
limiting_wt_ratio). -/
def is_slender_comp (wt lim : ℝ) : Prop := wt > lim

/-- `design_requirements.limiting_wt_ratio_comp` (Table B4.1a).  The Python
`match` on `table_case` is a chain of equality tests; `case _` raises
`ValueError`.  In case 2 a `kc` of `None` makes the Python expression
`0.64*sqrt(kc*elastic_modulus/yield_strength)` raise a `TypeError`; both
failure modes are modelled as `Except.error ()`. -/
def limiting_wt_ratio_comp (table_case : ℤ) (elastic_modulus yield_strength : ℝ)
    (kc : Option ℝ) : Except Unit ℝ :=
  if table_case = 1 then Except.ok (0.56 * Real.sqrt (elastic_modulus / yield_strength))
  else if table_case = 2 then
    (match kc with
     | none => Except.error ()
     | some k => Except.ok (0.64 * Real.sqrt (k * elastic_modulus / yield_strength)))
  else if table_case = 3 then Except.ok (0.45 * Real.sqrt (elastic_modulus / yield_strength))
  else if table_case = 4 then Except.ok (0.75 * Real.sqrt (elastic_modulus / yield_strength))
  else if table_case = 5 then Except.ok (1.49 * Real.sqrt (elastic_modulus / yield_strength))
  else if table_case = 6 then Except.ok (1.40 * Real.sqrt (elastic_modulus / yield_strength))
  else if table_case = 7 then Except.ok (0.40 * Real.sqrt (elastic_modulus / yield_strength))
  else if table_case = 8 then Except.ok (1.49 * Real.sqrt (elastic_modulus / yield_strength))
  else if table_case = 9 then Except.ok (0.11 * elastic_modulus / yield_strength)
  else Except.error ()

/-- The value returned by `limiting_wt_ratio_comp` at a call site that cannot
fail (the source calls it only with table cases 1 and 5, where it returns a
float directly). -/
def limiting_wt_val (table_case : ℤ) (elastic_modulus yield_strength : ℝ)
    (kc : Option ℝ) : ℝ :=
  ((limiting_wt_ratio_comp table_case elastic_modulus yield_strength kc).toOption).getD 0

/-- `design_requirements.w_is_slender_comp`: flange ratio bf/(2 tf) against the
case-1 limit, web ratio (d - kdes)/tw against the case-5 limit. -/
def w_is_slender_comp (flange_width flange_thickness section_depth kdes web_thickness
    yield_stress elastic_modulus : ℝ) : Prop :=
  flange_width / (2 * flange_thickness) > limiting_wt_val 1 elastic_modulus yield_stress none
  ∨ (section_depth - kdes) / web_thickness > limiting_wt_val 5 elastic_modulus yield_stress none

/-- `compression.elastic_local_buckling_stress` (Equation E7-5). -/
def elastic_local_buckling_stress (c2 wt lim yield_stress : ℝ) : ℝ :=
  (c2 * lim / wt) ^ 2 * yield_stress

/-- `compression.effective_width` (Equations E7-2, E7-3). -/
def effective_width (nominal_width wt lim yield_stress nominal_stress elastic_local_stress
    c1 : ℝ) : ℝ :=
  if wt ≤ lim * Real.sqrt (yield_stress / nominal_stress) then
    nominal_width
  else
    nominal_width * (1 - c1 * Real.sqrt (elastic_local_stress / nominal_stress))
      * Real.sqrt (elastic_local_stress / nominal_stress)

/-- `compression.w_section_effective_area`.  Note that the source computes both
limiting ratios with the constant `STEEL_ELASTIC_MODULUS`, not with a
caller-supplied modulus. -/
def w_section_effective_area (gross_area flange_width flange_thickness section_depth kdes
    web_thickness yield_stress nominal_stress : ℝ) : ℝ :=
  let fwt := flange_width / (2 * flange_thickness)
  let web_height := section_depth - 2 * kdes
  let wwt := web_height / web_thickness
  let fc1 := (EFFECTIVE_WIDTH_ADJUSTMENT_FACTORS "c").2.1
  let fc2 := (EFFECTIVE_WIDTH_ADJUSTMENT_FACTORS "c").2.2
  let flim := limiting_wt_val 1 STEEL_ELASTIC_MODULUS yield_stress none
  let fFel := elastic_local_buckling_stress fc2 fwt flim yield_stress
  let fbe := effective_width flange_width fwt flim yield_stress nominal_stress fFel fc1
  let wc1 := (EFFECTIVE_WIDTH_ADJUSTMENT_FACTORS "a").2.1
  let wc2 := (EFFECTIVE_WIDTH_ADJUSTMENT_FACTORS "a").2.2
  let wlim := limiting_wt_val 5 STEEL_ELASTIC_MODULUS yield_stress none
  let wFel := elastic_local_buckling_stress wc2 wwt wlim yield_stress
  let whe := effective_width web_height wwt wlim yield_stress nominal_stress wFel wc1
  if is_slender_comp fwt flim ∨ is_slender_comp wwt wlim then
    gross_area - 2 * flange_thickness * (flange_width - fbe) - web_thickness * (web_height - whe)
  else
    gross_area

/-- The zero-length substitution at the top of `w_section_capacity`
(`if unbraced_length == 0: unbraced_length = 0.00001`). -/
def subst_zero_length (L : ℝ) : ℝ :=
  if L = 0 then 0.00001 else L

/-- The argument record of `compression.w_section_capacity`; field names follow
the source's parameter names (with the source defaults `design_method` and
`return_report` handled separately). -/
structure WInput where
  area : ℝ
  Ix : ℝ
  Iy : ℝ
  J : ℝ
  warping_constant : ℝ
  flange_width : ℝ
  flange_thickness : ℝ
  section_depth : ℝ
  kdes : ℝ
  web_thickness : ℝ
  unbraced_length_x : ℝ
  unbraced_length_y : ℝ
  unbraced_length_z : ℝ
  yield_stress : ℝ
  elastic_modulus : ℝ
  shear_modulus : ℝ
  kx : ℝ
  ky : ℝ
  kz : ℝ
  x_brace_offset : ℝ
  y_brace_offset : ℝ

/-- `rx = sqrt(Ix/area)` as computed in `w_section_capacity`. -/
def w_rx (i : WInput) : ℝ := Real.sqrt (i.Ix / i.area)

/-- `ry = sqrt(Iy/area)` as computed in `w_section_capacity`. -/
def w_ry (i : WInput) : ℝ := Real.sqrt (i.Iy / i.area)

/-- `design_slenderness = max(slenderness_x, slenderness_y)` computed from the
substituted unbraced lengths, as in `w_section_capacity`. -/
def w_governing_slenderness (i : WInput) : ℝ :=
  max (member_slenderness (subst_zero_length i.unbraced_length_x) (w_rx i) i.kx)
      (member_slenderness (subst_zero_length i.unbraced_length_y) (w_ry i) i.ky)

/-- The flexural buckling stress computed in `w_section_capacity`: the source
calls `nominal_flexural_buckling_stress` with only `slenderness`, so the
elastic stress is first computed by `elastic_buckling_stress`. -/
def w_flexural_stress (i : WInput) : ℝ :=
  nominal_flexural_buckling_stress i.yield_stress
    (elastic_buckling_stress (w_governing_slenderness i) i.elastic_modulus)

/-- `effective_length_z = unbraced_length_z * kz` (after substitution). -/
def w_effective_length_z (i : WInput) : ℝ :=
  subst_zero_length i.unbraced_length_z * i.kz

/-- `r0 = calc_r0(rx, ry, x_brace_offset, y_brace_offset)` as in the source. -/
def w_r0 (i : WInput) : ℝ :=
  calc_r0 (w_rx i) (w_ry i) i.x_brace_offset i.y_brace_offset

/-- `h0 = section_depth - flange_thickness`. -/
def w_h0 (i : WInput) : ℝ := i.section_depth - i.flange_thickness

/-- The torsional / flexural-torsional buckling stress branch of
`w_section_capacity`: the offset variant when either brace offset is truthy
(nonzero), the doubly-symmetric variant otherwise. -/
def w_torsional_stress (i : WInput) : ℝ :=
  if i.x_brace_offset ≠ 0 ∨ i.y_brace_offset ≠ 0 then
    nominal_ft_buckling_stress_i_bracing_offset i.yield_stress (w_effective_length_z i)
      i.Ix i.Iy i.J i.area (w_r0 i) (w_h0 i) i.x_brace_offset i.y_brace_offset
      i.elastic_modulus i.shear_modulus
  else
    nominal_ft_buckling_stress_doubly_symmetric i.yield_stress (w_effective_length_z i)
      i.warping_constant i.Ix i.Iy i.J i.elastic_modulus i.shear_modulus

/-- `nominal_stress = min(flexural_buckling_stress, torsional_buckling_stress)`. -/
def w_nominal_stress (i : WInput) : ℝ :=
  min (w_flexural_stress i) (w_torsional_stress i)

/-- The `w_section_effective_area` call made by `w_section_capacity`. -/
def w_effective_area (i : WInput) : ℝ :=
  w_section_effective_area i.area i.flange_width i.flange_thickness i.section_depth i.kdes
    i.web_thickness i.yield_stress (w_nominal_stress i)

/-- `nominal_compressive_strength = nominal_stress * effective_area`. -/
def w_nominal_strength (i : WInput) : ℝ :=
  w_nominal_stress i * w_effective_area i

/-- The result of `w_section_capacity`: returned capacity, the report rows (in
insertion order, as (label, value, dimension-tag)), warnings and notes. -/
structure WSectionResult where
  capacity : ℝ
  report : List (String × ℝ × String)
  warnings : List String
  notes : List String

/-- `compression.w_section_capacity`.  The Python `match design_method` over
string literals is a chain of equality tests with `case _` raising
`ValueError`, modelled by the trailing `Except.error ()`. -/
def w_section_capacity (i : WInput) (design_method : String) : Except Unit WSectionResult :=
  let ds := w_governing_slenderness i
  let Fflex := w_flexural_stress i
  let Ftors := w_torsional_stress i
  let Fn := w_nominal_stress i
  let Ae := w_effective_area i
  let Pn := w_nominal_strength i
  let warns : List String :=
    (if ds > 200 then ["Slenderness ratio exceeds 200."] else []) ++
    (if i.x_brace_offset ≠ 0 ∧ i.y_brace_offset ≠ 0 then
      ["Torsional buckling results not valid with bracing offset in both axes."] else [])
  let nts : List String :=
    if w_is_slender_comp i.flange_width i.flange_thickness i.section_depth i.kdes
        i.web_thickness i.yield_stress i.elastic_modulus then
      ["Shape is slender for compression."] else []
  let rep : List (String × ℝ × String) :=
    [("Governing slenderness ratio, Lc/r", ds, ""),
     ("Nominal flexural buckling stress (Eqns E3-2, E3-3)", Fflex, "stress"),
     ((if i.x_brace_offset ≠ 0 ∨ i.y_brace_offset ≠ 0 then
         "Nominal torsional buckling stress (Eqn E4-2)"
       else
         "Nominal torsional buckling stress (Eqns E4-10, E4-12)"), Ftors, "stress"),
     ("Governing nominal buckling stress, Fn", Fn, "stress"),
     ("Effective area accounting for slender elements, Ae (Sect. E7)", Ae, "area"),
     ("Nominal compressive strength, Pn (Eqns E3-1, E4-1, E7-1)", Pn, "force")]
  if design_method = "nominal" then
    Except.ok ⟨Pn, rep, warns, nts⟩
  else if design_method = "LRFD" then
    Except.ok ⟨PHI_C * Pn,
      rep ++ [("Resistance factor, φ", PHI_C, ""),
              ("Factored compressive strength, φPn", PHI_C * Pn, "force")], warns, nts⟩
  else if design_method = "ASD" then
    Except.ok ⟨Pn / OMEGA_C,
      rep ++ [("Safety factor, Ω", OMEGA_C, ""),
              ("Allowable compressive strength, Pn/Ω", Pn / OMEGA_C, "force")], warns, nts⟩
  else
    Except.error ()

/-- Whether an `Except` result is a success. -/
def except_ok (e : Except Unit WSectionResult) : Bool :=
  match e with
  | Except.ok _ => true
  | Except.error _ => false

/-- Capacity of a successful result (0 for an error). -/
def cap_of (e : Except Unit WSectionResult) : ℝ :=
  match e with
  | Except.ok r => r.capacity
  | Except.error _ => 0

/-- Report rows of a successful result. -/
def report_of (e : Except Unit WSectionResult) : List (String × ℝ × String) :=
  match e with
  | Except.ok r => r.report
  | Except.error _ => []

/-- Warnings of a successful result. -/
def warnings_of (e : Except Unit WSectionResult) : List String :=
  match e with
  | Except.ok r => r.warnings
  | Except.error _ => []

/-- Notes of a successful result. -/
def notes_of (e : Except Unit WSectionResult) : List String :=
  match e with
  | Except.ok r => r.notes
  | Except.error _ => []

/-- The scalar factor each design method applies to the nominal strength. -/
def w_dm_factor (design_method : String) : ℝ :=
  if design_method = "LRFD" then PHI_C
  else if design_method = "ASD" then 1 / OMEGA_C
  else 1

/-- A concrete W10X33 input (the section used in the source's own test suite):
10-ft unbraced lengths, Fy = 50 ksi, default moduli and K factors, no offsets. -/
def sampleW : WInput :=
  ⟨9.71, 171, 36.6, 0.583, 791, 7.96, 0.435, 9.73, 0.935, 0.29,
   120, 120, 120, 50, 29000, 11200, 1, 1, 1, 0, 0⟩

/-- The sample input with the strong-axis unbraced length set to zero. -/
def sampleW0 : WInput := { sampleW with unbraced_length_x := 0 }

/-- Every divisor evaluated during `w_section_capacity` (after the zero-length
substitution) collected as a nonzero-ness fact, and every square-root radicand
collected as a non-negativity fact, following the order of evaluation in the
source: rx and ry, the member slendernesses, the Euler stress, the torsional
branch (offset or doubly-symmetric), the limiting width-to-thickness ratios,
the local-buckling stresses and effective widths, and the ASD safety factor. -/
def w_section_divisors_ok (i : WInput) : Prop :=
  i.area ≠ 0 ∧ 0 ≤ i.Ix / i.area ∧ 0 ≤ i.Iy / i.area
  ∧ 0 < w_rx i ∧ 0 < w_ry i
  ∧ w_governing_slenderness i ≠ 0
  ∧ 0 < elastic_buckling_stress (w_governing_slenderness i) i.elastic_modulus
  ∧ w_effective_length_z i ≠ 0 ∧ i.Ix + i.Iy ≠ 0 ∧ i.Iy ≠ 0
  ∧ i.area * (w_r0 i) ^ 2 ≠ 0
  ∧ 0 < (if i.x_brace_offset ≠ 0 ∨ i.y_brace_offset ≠ 0 then
          min (ft_elastic_buckling_stress_i_major_axis_offset (w_effective_length_z i) i.Ix i.Iy
                 i.J i.area (w_r0 i) (w_h0 i) i.x_brace_offset i.elastic_modulus i.shear_modulus)
              (ft_elastic_buckling_stress_i_minor_axis_offset (w_effective_length_z i) i.Iy i.J
                 i.area (w_r0 i) (w_h0 i) i.y_brace_offset i.elastic_modulus i.shear_modulus)
         else
          ft_elastic_buckling_stress_doubly_symmetric (w_effective_length_z i)
            i.warping_constant i.Ix i.Iy i.J i.elastic_modulus i.shear_modulus)
  ∧ 2 * i.flange_thickness ≠ 0 ∧ i.web_thickness ≠ 0
  ∧ i.flange_width / (2 * i.flange_thickness) ≠ 0
  ∧ (i.section_depth - 2 * i.kdes) / i.web_thickness ≠ 0
  ∧ i.yield_stress ≠ 0
  ∧ 0 ≤ STEEL_ELASTIC_MODULUS / i.yield_stress
  ∧ 0 ≤ i.elastic_modulus / i.yield_stress
  ∧ 0 < w_nominal_stress i
  ∧ 0 ≤ i.yield_stress / w_nominal_stress i
  ∧ 0 ≤ elastic_local_buckling_stress 1.49 (i.flange_width / (2 * i.flange_thickness))
          (limiting_wt_val 1 STEEL_ELASTIC_MODULUS i.yield_stress none) i.yield_stress
        / w_nominal_stress i
  ∧ 0 ≤ elastic_local_buckling_stress 1.31 ((i.section_depth - 2 * i.kdes) / i.web_thickness)
          (limiting_wt_val 5 STEEL_ELASTIC_MODULUS i.yield_stress none) i.yield_stress
        / w_nominal_stress i
  ∧ OMEGA_C ≠ 0

/-- `limiting_wt_ratio_comp` with table case 1 always succeeds with
0.56 √(E/Fy); `limiting_wt_val` extracts that value. -/
theorem limiting_wt_val_one (E Fy : ℝ) (kc : Option ℝ) :
    limiting_wt_val 1 E Fy kc = 0.56 * Real.sqrt (E / Fy) := rfl

/-- `limiting_wt_ratio_comp` with table case 5 always succeeds with
1.49 √(E/Fy); `limiting_wt_val` extracts that value. -/
theorem limiting_wt_val_five (E Fy : ℝ) (kc : Option ℝ) :
    limiting_wt_val 5 E Fy kc = 1.49 * Real.sqrt (E / Fy) := rfl

/-- Table E7.1, row "a" (stiffened elements), coefficient c1. -/
theorem ewaf_a_c1 : (EFFECTIVE_WIDTH_ADJUSTMENT_FACTORS "a").2.1 = 0.18 := rfl

/-- Table E7.1, row "a" (stiffened elements), coefficient c2. -/
theorem ewaf_a_c2 : (EFFECTIVE_WIDTH_ADJUSTMENT_FACTORS "a").2.2 = 1.31 := rfl

/-- Table E7.1, row "c" (all other elements), coefficient c1. -/
theorem ewaf_c_c1 : (EFFECTIVE_WIDTH_ADJUSTMENT_FACTORS "c").2.1 = 0.22 := rfl

/-- Table E7.1, row "c" (all other elements), coefficient c2. -/
theorem ewaf_c_c2 : (EFFECTIVE_WIDTH_ADJUSTMENT_FACTORS "c").2.2 = 1.49 := rfl

/-- C1: at the concrete input Lcz = 1, Iy = 1, J = 1, A = 1, h0 = 0, ya = 1,
E = 1, G = 1 with rx = ry = xa = ya = 1 (so rx² + ry² + xa² + ya² = 4), the
minor-axis-offset elastic flexural-torsional stress as composed in
`w_section_capacity` — `ft_elastic_buckling_stress_i_minor_axis_offset`
applied to `calc_r0 rx ry xa ya` — evaluates to (π² + 1)/16, and that value
differs from the claim's closed form (π²·E·Iy/Lcz²·(h0²/4 + ya²) + G·J) /
(A·(rx² + ry² + xa² + ya²)) = (π² + 1)/4: the code divides by A·(r0²)²
because `calc_r0` already returns the squared radius and the offset formula
squares its `r0` argument again. -/
theorem C1_offset_divisor_bug :
    ft_elastic_buckling_stress_i_minor_axis_offset 1 1 1 1 (calc_r0 1 1 1 1) 0 1 1 1
      = (Real.pi ^ 2 + 1) / 16
    ∧ (Real.pi ^ 2 + 1) / 16 ≠ (Real.pi ^ 2 + 1) / (1 * (1 ^ 2 + 1 ^ 2 + 1 ^ 2 + 1 ^ 2)) := by
  constructor
  · unfold ft_elastic_buckling_stress_i_minor_axis_offset calc_r0
    norm_num
    ring
  · intro h
    norm_num at h
    rw [div_eq_div_iff (by norm_num) (by norm_num)] at h
    nlinarith [sq_nonneg Real.pi]

/-- C2: for positive Fy and Fe the nominal flexural buckling stress follows the
two-regime formula of Equations E3-2 / E3-3, the branch decided by the fixed
threshold 2.25 with a non-strict inequality for the inelastic regime. -/
theorem C2_two_regime_flexural_stress (Fy Fe : ℝ) (hFy : 0 < Fy) (hFe : 0 < Fe) :
    (Fy / Fe ≤ 2.25 ∧ nominal_flexural_buckling_stress Fy Fe = (0.658 : ℝ) ^ (Fy / Fe) * Fy)
    ∨ (2.25 < Fy / Fe ∧ nominal_flexural_buckling_stress Fy Fe = 0.877 * Fe) := by
  by_cases h : Fy / Fe ≤ 2.25
  · exact Or.inl ⟨h, by simp only [nominal_flexural_buckling_stress]; rw [if_pos h]⟩
  · exact Or.inr ⟨lt_of_not_le h, by simp only [nominal_flexural_buckling_stress]; rw [if_neg h]⟩

/-- Witness for C2 at Fy = 50, Fe = 100. -/
theorem C2_two_regime_flexural_stress_witness :
    ((50 : ℝ) / 100 ≤ 2.25
        ∧ nominal_flexural_buckling_stress 50 100 = (0.658 : ℝ) ^ ((50 : ℝ) / 100) * 50)
    ∨ (2.25 < (50 : ℝ) / 100 ∧ nominal_flexural_buckling_stress 50 100 = 0.877 * 100) :=
  C2_two_regime_flexural_stress 50 100 (by norm_num) (by norm_num)

/-- C5: `limiting_wt_ratio_comp` fails exactly when the selector lies outside
1–9 or when case 2's required `kc` is omitted, and for each selector in 1–9
with its required coefficient supplied it returns the table's closed form. -/
theorem C5_limiting_wt_ratio_comp_cases (E Fy : ℝ) (kc : Option ℝ) (c : ℤ) :
    (limiting_wt_ratio_comp c E Fy kc = Except.error ()
      ↔ (c < 1 ∨ 9 < c ∨ (c = 2 ∧ kc = none)))
    ∧ limiting_wt_ratio_comp 1 E Fy kc = Except.ok (0.56 * Real.sqrt (E / Fy))
    ∧ (∀ k : ℝ, limiting_wt_ratio_comp 2 E Fy (some k)
        = Except.ok (0.64 * Real.sqrt (k * E / Fy)))
    ∧ limiting_wt_ratio_comp 3 E Fy kc = Except.ok (0.45 * Real.sqrt (E / Fy))
    ∧ limiting_wt_ratio_comp 4 E Fy kc = Except.ok (0.75 * Real.sqrt (E / Fy))
    ∧ limiting_wt_ratio_comp 5 E Fy kc = Except.ok (1.49 * Real.sqrt (E / Fy))
    ∧ limiting_wt_ratio_comp 6 E Fy kc = Except.ok (1.40 * Real.sqrt (E / Fy))
    ∧ limiting_wt_ratio_comp 7 E Fy kc = Except.ok (0.40 * Real.sqrt (E / Fy))
    ∧ limiting_wt_ratio_comp 8 E Fy kc = Except.ok (1.49 * Real.sqrt (E / Fy))
    ∧ limiting_wt_ratio_comp 9 E Fy kc = Except.ok (0.11 * E / Fy) := by
  refine ⟨?_, rfl, fun k => rfl, rfl, rfl, rfl, rfl, rfl, rfl, rfl⟩
  unfold limiting_wt_ratio_comp
  split_ifs with h1 h2 h3 h4 h5 h6 h7 h8 h9
  · refine iff_of_false (by simp) ?_
    rintro (h | h | ⟨h, -⟩) <;> omega
  · cases kc with
    | none => exact iff_of_true rfl (Or.inr (Or.inr ⟨h2, rfl⟩))
    | some k =>
        refine iff_of_false (by simp) ?_
        rintro (h | h | ⟨-, hn⟩)
        · omega
        · omega
        · simp at hn
  · refine iff_of_false (by simp) ?_
    rintro (h | h | ⟨h, -⟩) <;> omega
  · refine iff_of_false (by simp) ?_
    rintro (h | h | ⟨h, -⟩) <;> omega
  · refine iff_of_false (by simp) ?_
    rintro (h | h | ⟨h, -⟩) <;> omega
  · refine iff_of_false (by simp) ?_
    rintro (h | h | ⟨h, -⟩) <;> omega
  · refine iff_of_false (by simp) ?_
    rintro (h | h | ⟨h, -⟩) <;> omega
  · refine iff_of_false (by simp) ?_
    rintro (h | h | ⟨h, -⟩) <;> omega
  · refine iff_of_false (by simp) ?_
    rintro (h | h | ⟨h, -⟩) <;> omega
  · refine iff_of_true rfl ?_
    have h : c < 1 ∨ 9 < c := by omega
    rcases h with h | h
    · exact Or.inl h
    · exact Or.inr (Or.inl h)

/-- C4: the effective area of a W section equals the gross area when neither
the flange ratio bf/(2 tf) nor the web ratio (d − 2 kdes)/tw exceeds its
limiting width-to-thickness ratio (table case 1 resp. 5), and otherwise equals
gross − 2 tf (bf − effective flange width) − tw (web height − effective web
height), each element's effective width being fully effective when
b/t ≤ limit·√(Fy/Fn) and otherwise nominal·(1 − c1·√(Fel/Fn))·√(Fel/Fn) with
Fel = (c2·limit/(b/t))²·Fy, with (c1, c2) = (0.22, 1.49) for the flange and
(0.18, 1.31) for the web. -/
theorem C4_effective_area_formula (gross_area bf tf d kdes tw Fy Fn : ℝ) :
    w_section_effective_area gross_area bf tf d kdes tw Fy Fn =
      if bf / (2 * tf) > 0.56 * Real.sqrt (STEEL_ELASTIC_MODULUS / Fy)
          ∨ (d - 2 * kdes) / tw > 1.49 * Real.sqrt (STEEL_ELASTIC_MODULUS / Fy) then
        gross_area
          - 2 * tf * (bf -
              (if bf / (2 * tf)
                    ≤ 0.56 * Real.sqrt (STEEL_ELASTIC_MODULUS / Fy) * Real.sqrt (Fy / Fn) then
                 bf
               else
                 bf * (1 - 0.22 * Real.sqrt
                        ((1.49 * (0.56 * Real.sqrt (STEEL_ELASTIC_MODULUS / Fy))
                            / (bf / (2 * tf))) ^ 2 * Fy / Fn))
                    * Real.sqrt ((1.49 * (0.56 * Real.sqrt (STEEL_ELASTIC_MODULUS / Fy))
                            / (bf / (2 * tf))) ^ 2 * Fy / Fn)))
          - tw * ((d - 2 * kdes) -
              (if (d - 2 * kdes) / tw
                    ≤ 1.49 * Real.sqrt (STEEL_ELASTIC_MODULUS / Fy) * Real.sqrt (Fy / Fn) then
                 d - 2 * kdes
               else
                 (d - 2 * kdes) * (1 - 0.18 * Real.sqrt
                        ((1.31 * (1.49 * Real.sqrt (STEEL_ELASTIC_MODULUS / Fy))
                            / ((d - 2 * kdes) / tw)) ^ 2 * Fy / Fn))
                    * Real.sqrt ((1.31 * (1.49 * Real.sqrt (STEEL_ELASTIC_MODULUS / Fy))
                            / ((d - 2 * kdes) / tw)) ^ 2 * Fy / Fn)))
      else gross_area := by
  simp only [w_section_effective_area, effective_width, elastic_local_buckling_stress,
    is_slender_comp, limiting_wt_val_one, limiting_wt_val_five, ewaf_a_c1, ewaf_a_c2,
    ewaf_c_c1, ewaf_c_c2]

/-- C9: the LRFD capacity is 0.90 times the nominal capacity, the ASD capacity
is the nominal capacity divided by 1.67, the "nominal" method returns the
nominal compressive strength unchanged, and `w_section_capacity` fails exactly
on design-method selectors other than the three recognized ones. -/
theorem C9_design_method_reduction (i : WInput) (dm : String) :
    cap_of (w_section_capacity i "LRFD") = 0.90 * cap_of (w_section_capacity i "nominal")
    ∧ cap_of (w_section_capacity i "ASD") = cap_of (w_section_capacity i "nominal") / 1.67
    ∧ cap_of (w_section_capacity i "nominal") = w_nominal_strength i
    ∧ (w_section_capacity i dm = Except.error ()
        ↔ dm ≠ "nominal" ∧ dm ≠ "LRFD" ∧ dm ≠ "ASD") := by
  refine ⟨rfl, rfl, rfl, ?_⟩
  by_cases h1 : dm = "nominal"
  · subst h1
    exact iff_of_false (fun h => Bool.noConfusion (congrArg except_ok h)) (fun h => h.1 rfl)
  · by_cases h2 : dm = "LRFD"
    · subst h2
      exact iff_of_false (fun h => Bool.noConfusion (congrArg except_ok h)) (fun h => h.2.1 rfl)
    · by_cases h3 : dm = "ASD"
      · subst h3
        exact iff_of_false (fun h => Bool.noConfusion (congrArg except_ok h)) (fun h => h.2.2 rfl)
      · refine iff_of_true ?_ ⟨h1, h2, h3⟩
        simp only [w_section_capacity]
        rw [if_neg h1, if_neg h2, if_neg h3]

/-- C3: for every accepted input, the report row "Governing nominal buckling
stress, Fn" carries the minimum of the flexural and the torsional /
flexural-torsional nominal buckling stresses, and the returned capacity is the
design-method factor times that minimum times the effective area computed from
it. -/
theorem C3_governing_nominal_stress_min (i : WInput) (dm : String)
    (hdm : dm = "nominal" ∨ dm = "LRFD" ∨ dm = "ASD") :
    ("Governing nominal buckling stress, Fn",
        min (w_flexural_stress i) (w_torsional_stress i), "stress")
      ∈ report_of (w_section_capacity i dm)
    ∧ cap_of (w_section_capacity i dm)
        = w_dm_factor dm *
            (min (w_flexural_stress i) (w_torsional_stress i) *
              w_section_effective_area i.area i.flange_width i.flange_thickness i.section_depth
                i.kdes i.web_thickness i.yield_stress
                (min (w_flexural_stress i) (w_torsional_stress i))) := by
  rcases hdm with h | h | h <;> subst h
  · refine ⟨?_, ?_⟩
    · simp [report_of, w_section_capacity, w_nominal_stress]
    · simp [cap_of, w_section_capacity, w_dm_factor, w_nominal_strength, w_nominal_stress,
        w_effective_area]
  · refine ⟨?_, ?_⟩
    · simp [report_of, w_section_capacity, w_nominal_stress]
    · simp [cap_of, w_section_capacity, w_dm_factor, w_nominal_strength, w_nominal_stress,
        w_effective_area]
  · refine ⟨?_, ?_⟩
    · simp [report_of, w_section_capacity, w_nominal_stress]
    · simp [cap_of, w_section_capacity, w_dm_factor, w_nominal_strength, w_nominal_stress,
        w_effective_area]
      try ring

/-- Witness for C3 at the sample W10X33 input with the nominal method. -/
theorem C3_governing_nominal_stress_min_witness :
    ("Governing nominal buckling stress, Fn",
        min (w_flexural_stress sampleW) (w_torsional_stress sampleW), "stress")
      ∈ report_of (w_section_capacity sampleW "nominal")
    ∧ cap_of (w_section_capacity sampleW "nominal")
        = w_dm_factor "nominal" *
            (min (w_flexural_stress sampleW) (w_torsional_stress sampleW) *
              w_section_effective_area sampleW.area sampleW.flange_width sampleW.flange_thickness
                sampleW.section_depth sampleW.kdes sampleW.web_thickness sampleW.yield_stress
                (min (w_flexural_stress sampleW) (w_torsional_stress sampleW))) :=
  C3_governing_nominal_stress_min sampleW "nominal" (Or.inl rfl)

/-- C7: the note "Shape is slender for compression." is emitted exactly when
the independent W-section slenderness classification holds — flange ratio
bf/(2 tf) above 0.56 √(E/Fy) or web ratio (d − kdes)/tw above 1.49 √(E/Fy),
with the d − kdes web-height convention — and the returned capacity is the
design-method factor times nominal stress times effective area, an expression
independent of that classification. -/
theorem C7_slender_note (i : WInput) (dm : String)
    (hdm : dm = "nominal" ∨ dm = "LRFD" ∨ dm = "ASD") :
    ("Shape is slender for compression." ∈ notes_of (w_section_capacity i dm)
      ↔ (i.flange_width / (2 * i.flange_thickness)
            > 0.56 * Real.sqrt (i.elastic_modulus / i.yield_stress)
          ∨ (i.section_depth - i.kdes) / i.web_thickness
            > 1.49 * Real.sqrt (i.elastic_modulus / i.yield_stress)))
    ∧ cap_of (w_section_capacity i dm)
        = w_dm_factor dm * (w_nominal_stress i * w_effective_area i) := by
  have hcond : w_is_slender_comp i.flange_width i.flange_thickness i.section_depth i.kdes
      i.web_thickness i.yield_stress i.elastic_modulus
      ↔ (i.flange_width / (2 * i.flange_thickness)
            > 0.56 * Real.sqrt (i.elastic_modulus / i.yield_stress)
          ∨ (i.section_depth - i.kdes) / i.web_thickness
            > 1.49 * Real.sqrt (i.elastic_modulus / i.yield_stress)) := by
    unfold w_is_slender_comp
    rw [limiting_wt_val_one, limiting_wt_val_five]
  rcases hdm with h | h | h <;> subst h <;> refine ⟨?_, ?_⟩ <;>
    [skip; skip; skip; skip; skip; skip]
  · rw [← hcond]
    by_cases hs : w_is_slender_comp i.flange_width i.flange_thickness i.section_depth i.kdes
        i.web_thickness i.yield_stress i.elastic_modulus
    · simp [notes_of, w_section_capacity, hs]
    · simp [notes_of, w_section_capacity, hs]
  · simp [cap_of, w_section_capacity, w_dm_factor, w_nominal_strength]
  · rw [← hcond]
    by_cases hs : w_is_slender_comp i.flange_width i.flange_thickness i.section_depth i.kdes
        i.web_thickness i.yield_stress i.elastic_modulus
    · simp [notes_of, w_section_capacity, hs]
    · simp [notes_of, w_section_capacity, hs]
  · simp [cap_of, w_section_capacity, w_dm_factor, w_nominal_strength]
  · rw [← hcond]
    by_cases hs : w_is_slender_comp i.flange_width i.flange_thickness i.section_depth i.kdes
        i.web_thickness i.yield_stress i.elastic_modulus
    · simp [notes_of, w_section_capacity, hs]
    · simp [notes_of, w_section_capacity, hs]
  · simp [cap_of, w_section_capacity, w_dm_factor, w_nominal_strength]
    try ring

/-- Witness for C7 at the sample W10X33 input with the LRFD method. -/
theorem C7_slender_note_witness :
    ("Shape is slender for compression." ∈ notes_of (w_section_capacity sampleW "LRFD")
      ↔ (sampleW.flange_width / (2 * sampleW.flange_thickness)
            > 0.56 * Real.sqrt (sampleW.elastic_modulus / sampleW.yield_stress)
          ∨ (sampleW.section_depth - sampleW.kdes) / sampleW.web_thickness
            > 1.49 * Real.sqrt (sampleW.elastic_modulus / sampleW.yield_stress)))
    ∧ cap_of (w_section_capacity sampleW "LRFD")
        = w_dm_factor "LRFD" * (w_nominal_stress sampleW * w_effective_area sampleW) :=
  C7_slender_note sampleW "LRFD" (Or.inr (Or.inl rfl))

/-- C8: the warning "Slenderness ratio exceeds 200." is emitted exactly when
the governing slenderness ratio max(Kx Lx/rx, Ky Ly/ry) is strictly greater
than 200, and the computation still succeeds and returns a capacity. -/
theorem C8_slenderness_warning (i : WInput) (dm : String)
    (hdm : dm = "nominal" ∨ dm = "LRFD" ∨ dm = "ASD")
    (hLx : i.unbraced_length_x ≠ 0) (hLy : i.unbraced_length_y ≠ 0) :
    ("Slenderness ratio exceeds 200." ∈ warnings_of (w_section_capacity i dm)
      ↔ max (member_slenderness i.unbraced_length_x (Real.sqrt (i.Ix / i.area)) i.kx)
            (member_slenderness i.unbraced_length_y (Real.sqrt (i.Iy / i.area)) i.ky) > 200)
    ∧ except_ok (w_section_capacity i dm) = true := by
  have hgs : w_governing_slenderness i
      = max (member_slenderness i.unbraced_length_x (Real.sqrt (i.Ix / i.area)) i.kx)
            (member_slenderness i.unbraced_length_y (Real.sqrt (i.Iy / i.area)) i.ky) := by
    unfold w_governing_slenderness w_rx w_ry subst_zero_length
    rw [if_neg hLx, if_neg hLy]
  rcases hdm with h | h | h <;> subst h <;> refine ⟨?_, rfl⟩ <;> rw [← hgs] <;>
    by_cases hd : w_governing_slenderness i > 200 <;>
    by_cases hb : i.x_brace_offset ≠ 0 ∧ i.y_brace_offset ≠ 0 <;>
    simp [warnings_of, w_section_capacity, hd, hb]

/-- Witness for C8 at the sample W10X33 input with the ASD method. -/
theorem C8_slenderness_warning_witness :
    ("Slenderness ratio exceeds 200." ∈ warnings_of (w_section_capacity sampleW "ASD")
      ↔ max (member_slenderness sampleW.unbraced_length_x
               (Real.sqrt (sampleW.Ix / sampleW.area)) sampleW.kx)
            (member_slenderness sampleW.unbraced_length_y
               (Real.sqrt (sampleW.Iy / sampleW.area)) sampleW.ky) > 200)
    ∧ except_ok (w_section_capacity sampleW "ASD") = true :=
  C8_slenderness_warning sampleW "ASD" (Or.inr (Or.inr rfl))
    (by norm_num [sampleW]) (by norm_num [sampleW])

/-- The zero-length substitution is idempotent. -/
theorem subst_zero_length_idem (L : ℝ) :
    subst_zero_length (subst_zero_length L) = subst_zero_length L := by
  by_cases h : L = 0
  · simp only [subst_zero_length, if_pos h]
    norm_num
  · simp only [subst_zero_length, if_neg h]

/-- The zero-length substitution turns a non-negative length into a positive
one. -/
theorem subst_zero_length_pos (L : ℝ) (hL : 0 ≤ L) : 0 < subst_zero_length L := by
  unfold subst_zero_length
  by_cases h : L = 0
  · rw [if_pos h]; norm_num
  · rw [if_neg h]; exact lt_of_le_of_ne hL (Ne.symm h)

/-- C6: when any unbraced length is exactly zero, `w_section_capacity` does
not skip the calculation: its result equals the result of the same call with
every zero length replaced by the fixed constant 0.00001 (positive lengths
passing through unchanged, since the substitution is the identity on them),
all substituted lengths are strictly positive, and the call still succeeds. -/
theorem C6_zero_length_substitution (i : WInput) (dm : String)
    (hdm : dm = "nominal" ∨ dm = "LRFD" ∨ dm = "ASD")
    (hLx : 0 ≤ i.unbraced_length_x) (hLy : 0 ≤ i.unbraced_length_y)
    (hLz : 0 ≤ i.unbraced_length_z)
    (hzero : i.unbraced_length_x = 0 ∨ i.unbraced_length_y = 0 ∨ i.unbraced_length_z = 0) :
    w_section_capacity i dm =
      w_section_capacity
        { i with
            unbraced_length_x := subst_zero_length i.unbraced_length_x,
            unbraced_length_y := subst_zero_length i.unbraced_length_y,
            unbraced_length_z := subst_zero_length i.unbraced_length_z } dm
    ∧ 0 < subst_zero_length i.unbraced_length_x
    ∧ 0 < subst_zero_length i.unbraced_length_y
    ∧ 0 < subst_zero_length i.unbraced_length_z
    ∧ except_ok (w_section_capacity i dm) = true := by
  refine ⟨?_, subst_zero_length_pos _ hLx, subst_zero_length_pos _ hLy,
    subst_zero_length_pos _ hLz, ?_⟩
  · simp only [w_section_capacity, w_governing_slenderness, w_flexural_stress,
      w_torsional_stress, w_nominal_stress, w_effective_area, w_nominal_strength,
      w_effective_length_z, w_rx, w_ry, w_r0, w_h0, subst_zero_length_idem]
  · rcases hdm with h | h | h <;> subst h <;> rfl

/-- Witness for C6 at the sample input with a zero strong-axis length and the
nominal method. -/
theorem C6_zero_length_substitution_witness :
    (w_section_capacity sampleW0 "nominal" =
      w_section_capacity
        { sampleW0 with
            unbraced_length_x := subst_zero_length sampleW0.unbraced_length_x,
            unbraced_length_y := subst_zero_length sampleW0.unbraced_length_y,
            unbraced_length_z := subst_zero_length sampleW0.unbraced_length_z } "nominal"
    ∧ 0 < subst_zero_length sampleW0.unbraced_length_x
    ∧ 0 < subst_zero_length sampleW0.unbraced_length_y
    ∧ 0 < subst_zero_length sampleW0.unbraced_length_z
    ∧ except_ok (w_section_capacity sampleW0 "nominal") = true) :=
  C6_zero_length_substitution sampleW0 "nominal" (Or.inl rfl)
    (by norm_num [sampleW0, sampleW]) (by norm_num [sampleW0, sampleW])
    (by norm_num [sampleW0, sampleW]) (Or.inl (by norm_num [sampleW0, sampleW]))

/-- The two-regime nominal flexural buckling stress is positive for positive
yield stress and positive elastic stress. -/
theorem nominal_flexural_buckling_stress_pos (Fy Fe : ℝ) (hFy : 0 < Fy) (hFe : 0 < Fe) :
    0 < nominal_flexural_buckling_stress Fy Fe := by
  unfold nominal_flexural_buckling_stress
  split_ifs
  · exact mul_pos (Real.rpow_pos_of_pos (by norm_num) _) hFy
  · exact mul_pos (by norm_num) hFe

/-- C10: under the spec's positivity preconditions and a recognized design
method, every divisor arising in `w_section_capacity` (after the zero-length
substitution) is nonzero, every square-root radicand is non-negative, and the
call returns a result. -/
theorem C10_totality (i : WInput) (dm : String)
    (hdm : dm = "nominal" ∨ dm = "LRFD" ∨ dm = "ASD")
    (harea : 0 < i.area) (hIx : 0 < i.Ix) (hIy : 0 < i.Iy) (hJ : 0 < i.J)
    (hCw : 0 < i.warping_constant) (hbf : 0 < i.flange_width)
    (htf : 0 < i.flange_thickness) (htw : 0 < i.web_thickness)
    (hFy : 0 < i.yield_stress) (hE : 0 < i.elastic_modulus) (hG : 0 < i.shear_modulus)
    (hkdes : 0 < i.kdes) (hd : 2 * i.kdes < i.section_depth)
    (hkx : 0 < i.kx) (hky : 0 < i.ky) (hkz : 0 < i.kz)
    (hLx : 0 ≤ i.unbraced_length_x) (hLy : 0 ≤ i.unbraced_length_y)
    (hLz : 0 ≤ i.unbraced_length_z) :
    w_section_divisors_ok i ∧ except_ok (w_section_capacity i dm) = true := by
  have hrx : 0 < w_rx i := Real.sqrt_pos.mpr (div_pos hIx harea)
  have hry : 0 < w_ry i := Real.sqrt_pos.mpr (div_pos hIy harea)
  have hLx' : 0 < subst_zero_length i.unbraced_length_x := subst_zero_length_pos _ hLx
  have hLy' : 0 < subst_zero_length i.unbraced_length_y := subst_zero_length_pos _ hLy
  have hLz' : 0 < subst_zero_length i.unbraced_length_z := subst_zero_length_pos _ hLz
  have hsx : 0 < member_slenderness (subst_zero_length i.unbraced_length_x) (w_rx i) i.kx := by
    unfold member_slenderness
    exact div_pos (mul_pos hkx hLx') hrx
  have hds : 0 < w_governing_slenderness i := lt_of_lt_of_le hsx (le_max_left _ _)
  have hpiE : 0 < Real.pi ^ 2 * i.elastic_modulus := mul_pos (pow_pos Real.pi_pos 2) hE
  have hFe : 0 < elastic_buckling_stress (w_governing_slenderness i) i.elastic_modulus := by
    unfold elastic_buckling_stress
    exact div_pos hpiE (pow_pos hds 2)
  have hlz : 0 < w_effective_length_z i := mul_pos hLz' hkz
  have hr0 : 0 < w_r0 i := by
    unfold w_r0 calc_r0
    have h1 := pow_pos hrx 2
    have h2 := sq_nonneg (w_ry i)
    have h3 := sq_nonneg i.x_brace_offset
    have h4 := sq_nonneg i.y_brace_offset
    linarith
  have hmaj : 0 < ft_elastic_buckling_stress_i_major_axis_offset (w_effective_length_z i)
      i.Ix i.Iy i.J i.area (w_r0 i) (w_h0 i) i.x_brace_offset
      i.elastic_modulus i.shear_modulus := by
    unfold ft_elastic_buckling_stress_i_major_axis_offset
    refine mul_pos (add_pos_of_nonneg_of_pos ?_ (mul_pos hG hJ))
      (one_div_pos.mpr (mul_pos harea (pow_pos hr0 2)))
    refine mul_nonneg (div_nonneg (le_of_lt (mul_pos hpiE hIy)) (sq_nonneg _)) ?_
    exact add_nonneg (div_nonneg (sq_nonneg _) (by norm_num))
      (mul_nonneg (le_of_lt (div_pos hIx hIy)) (sq_nonneg _))
  have hmin : 0 < ft_elastic_buckling_stress_i_minor_axis_offset (w_effective_length_z i)
      i.Iy i.J i.area (w_r0 i) (w_h0 i) i.y_brace_offset
      i.elastic_modulus i.shear_modulus := by
    unfold ft_elastic_buckling_stress_i_minor_axis_offset
    refine mul_pos (add_pos_of_nonneg_of_pos ?_ (mul_pos hG hJ))
      (one_div_pos.mpr (mul_pos harea (pow_pos hr0 2)))
    refine mul_nonneg (div_nonneg (le_of_lt (mul_pos hpiE hIy)) (sq_nonneg _)) ?_
    exact add_nonneg (div_nonneg (sq_nonneg _) (by norm_num)) (sq_nonneg _)
  have hdoub : 0 < ft_elastic_buckling_stress_doubly_symmetric (w_effective_length_z i)
      i.warping_constant i.Ix i.Iy i.J i.elastic_modulus i.shear_modulus := by
    unfold ft_elastic_buckling_stress_doubly_symmetric
    refine mul_pos (add_pos ?_ (mul_pos hG hJ)) (one_div_pos.mpr (by linarith))
    exact div_pos (mul_pos hpiE hCw) (pow_pos hlz 2)
  have htors_e : 0 < (if i.x_brace_offset ≠ 0 ∨ i.y_brace_offset ≠ 0 then
      min (ft_elastic_buckling_stress_i_major_axis_offset (w_effective_length_z i) i.Ix i.Iy
             i.J i.area (w_r0 i) (w_h0 i) i.x_brace_offset i.elastic_modulus i.shear_modulus)
          (ft_elastic_buckling_stress_i_minor_axis_offset (w_effective_length_z i) i.Iy i.J
             i.area (w_r0 i) (w_h0 i) i.y_brace_offset i.elastic_modulus i.shear_modulus)
    else
      ft_elastic_buckling_stress_doubly_symmetric (w_effective_length_z i)
        i.warping_constant i.Ix i.Iy i.J i.elastic_modulus i.shear_modulus) := by
    split_ifs
    · exact lt_min hmaj hmin
    · exact hdoub
  have hFn : 0 < w_nominal_stress i := by
    unfold w_nominal_stress
    apply lt_min
    · exact nominal_flexural_buckling_stress_pos _ _ hFy hFe
    · unfold w_torsional_stress
      split_ifs with ho
      · unfold nominal_ft_buckling_stress_i_bracing_offset
        exact nominal_flexural_buckling_stress_pos _ _ hFy (lt_min hmaj hmin)
      · unfold nominal_ft_buckling_stress_doubly_symmetric
        exact nominal_flexural_buckling_stress_pos _ _ hFy hdoub
  have hweb : 0 < i.section_depth - 2 * i.kdes := by linarith
  have hFelf : 0 ≤ elastic_local_buckling_stress 1.49
      (i.flange_width / (2 * i.flange_thickness))
      (limiting_wt_val 1 STEEL_ELASTIC_MODULUS i.yield_stress none) i.yield_stress := by
    unfold elastic_local_buckling_stress
    exact mul_nonneg (sq_nonneg _) (le_of_lt hFy)
  have hFelw : 0 ≤ elastic_local_buckling_stress 1.31
      ((i.section_depth - 2 * i.kdes) / i.web_thickness)
      (limiting_wt_val 5 STEEL_ELASTIC_MODULUS i.yield_stress none) i.yield_stress := by
    unfold elastic_local_buckling_stress
    exact mul_nonneg (sq_nonneg _) (le_of_lt hFy)
  have hIxy : i.Ix + i.Iy ≠ 0 := ne_of_gt (by linarith)
  have htf2 : (0 : ℝ) < 2 * i.flange_thickness := by linarith
  have hE0 : (0 : ℝ) < STEEL_ELASTIC_MODULUS := by norm_num [STEEL_ELASTIC_MODULUS]
  refine ⟨⟨ne_of_gt harea, le_of_lt (div_pos hIx harea), le_of_lt (div_pos hIy harea),
    hrx, hry, ne_of_gt hds, hFe, ne_of_gt hlz, hIxy, ne_of_gt hIy,
    ne_of_gt (mul_pos harea (pow_pos hr0 2)), htors_e,
    ne_of_gt htf2, ne_of_gt htw,
    ne_of_gt (div_pos hbf htf2), ne_of_gt (div_pos hweb htw),
    ne_of_gt hFy,
    le_of_lt (div_pos hE0 hFy),
    le_of_lt (div_pos hE hFy),
    hFn,
    le_of_lt (div_pos hFy hFn),
    div_nonneg hFelf (le_of_lt hFn),
    div_nonneg hFelw (le_of_lt hFn),
    by norm_num [OMEGA_C]⟩, ?_⟩
  rcases hdm with h | h | h <;> subst h <;> rfl

/-- Witness for C10 at the sample W10X33 input with the ASD method. -/
theorem C10_totality_witness :
    w_section_divisors_ok sampleW ∧ except_ok (w_section_capacity sampleW "ASD") = true :=
  C10_totality sampleW "ASD" (Or.inr (Or.inr rfl))
    (by norm_num [sampleW]) (by norm_num [sampleW]) (by norm_num [sampleW])
    (by norm_num [sampleW]) (by norm_num [sampleW]) (by norm_num [sampleW])
    (by norm_num [sampleW]) (by norm_num [sampleW]) (by norm_num [sampleW])
    (by norm_num [sampleW]) (by norm_num [sampleW]) (by norm_num [sampleW])
    (by norm_num [sampleW]) (by norm_num [sampleW]) (by norm_num [sampleW])
    (by norm_num [sampleW]) (by norm_num [sampleW]) (by norm_num [sampleW])
    (by norm_num [sampleW])

end AISC

end
